import Mathlib

/-!
# `dapr dashboard` launcher (cmd/dashboard.go)

A shallow embedding of `DashboardCmd.Run`.  The collaborators the command calls
(`kubernetes.GetKubeConfigClient`, `kubernetes.CheckPodExists`,
`kubernetes.NewPortForward`, `PortForward.Init`, `browser.OpenURL`) are the fields of
an environment `Env`; the command itself is a function from the environment and the
package-level variables to the ordered list of calls it makes (`Event`), ending either
in `osExit 1` or in the deferred `signal.Stop` of the normal return.
-/

namespace Dashboard

/-! ## Constants (dashboard.go, lines 19-34) -/

/-- The name of the dashboard service running in cluster. -/
def dashboardSvc : String := "dapr-dashboard"

/-- The default host used for port forwarding. -/
def defaultHost : String := "localhost"

/-- The default local port used for port forwarding. -/
def defaultLocalPort : Int := 8080

/-- The default namespace where the dashboard is deployed. -/
def defaultNamespace : String := "dapr-system"

/-- The port the dashboard pod is listening on. -/
def remotePort : Int := 8080

/-- The default value of the `--port` flag registered by `init` (line 122). -/
def portFlagDefault : Int := defaultLocalPort

/-- The flags `init` registers on the command (lines 121-122), by long name and shorthand. -/
def registeredFlags : List (String × String) := [("kubernetes", "k"), ("port", "p")]

/-! ## Formatting verbs of `fmt.Sprintf` used by the command -/

/-- The verb `%d` on an `int`: an optional minus sign and the decimal digits. -/
def fmtD (n : Int) : String :=
  if n < 0 then "-" ++ Nat.repr n.natAbs else Nat.repr n.toNat

/-- The verb `%v` on a `[]string`: the elements separated by blanks, in brackets. -/
def fmtV (xs : List String) : String :=
  "[" ++ " ".intercalate xs ++ "]"

/-! ## Package-level variables and collaborators -/

/-- The package-level variables visible to `Run`: `port` (bound to `--port`) and
`dashboardNamespace` (declared on line 36). -/
structure Globals where
  port : Int
  dashboardNamespace : String

/-- The results of the external calls; an error is `some` of its text, `none` is `nil`. -/
structure Env where
  /-- The error of `kubernetes.GetKubeConfigClient()`. -/
  getKubeConfigClient : Option String
  /-- The result of `kubernetes.CheckPodExists(client, namespace, nil, dashboardSvc)`. -/
  checkPodExists : String → Bool
  /-- The error of `kubernetes.NewPortForward`, by namespace and local port. -/
  newPortForward : String → Int → Option String
  /-- The error of `portForward.Init()`, by namespace and local port. -/
  init : String → Int → Option String
  /-- The error of `browser.OpenURL(url)`. -/
  openURL : String → Option String

/-- The calls `Run` makes, in program order, each with the result it got. -/
inductive Event where
  | getKubeConfigClient (err : Option String)
  | signalNotify
  | checkPodExists (ns : String) (name : String) (ok : Bool)
  | failureStatusEvent (msg : String)
  | infoStatusEvent (msg : String)
  | newPortForward (ns : String) (deployName : String) (host : String)
      (localPort : Int) (remotePort : Int) (emitLogs : Bool) (err : Option String)
  | portForwardInit (err : Option String)
  | goStopOnInterrupt
  | openURL (url : String) (err : Option String)
  | awaitGetStop
  | signalStop
  | osExit (code : Int)
  deriving DecidableEq, Repr

/-! ## The namespace search loop (lines 62-70) -/

/-- The loop `for _, namespace := range namespaces` with its `break`: the value of
`foundNamespace` after the loop and the namespaces queried, in the order queried. -/
def searchLoop (check : String → Bool) : List String → String × List String
  | [] => ("", [])
  | ns :: rest =>
    if check ns then (ns, [ns])
    else ((searchLoop check rest).1, ns :: (searchLoop check rest).2)

/-- The value of `foundNamespace` after the loop. -/
def foundNamespace (check : String → Bool) (namespaces : List String) : String :=
  (searchLoop check namespaces).1

/-- The namespaces queried by the loop, in the order queried. -/
def queries (check : String → Bool) (namespaces : List String) : List String :=
  (searchLoop check namespaces).2

/-- The candidate list of line 63. -/
def namespaces : List String := ["dapr-system", "default"]

/-! ## Messages -/

/-- The message of line 51. -/
def clientFailureMsg : String := "Failed to initialize kubernetes client"

/-- The message of line 74, `%v` applied to the candidate list. -/
def notFoundMsg (tried : List String) : String :=
  "Failed to find Dapr dashboard in namespaces: " ++ fmtV tried ++
    "\nIf Dapr dashboard is deployed to a different namespace, please use dapr dashboard -n"

/-- The message of line 88. -/
def newPortForwardFailureMsg (err : String) : String := err ++ "\n"

/-- The message of line 94. -/
def initFailureMsg (err : String) : String :=
  "Error in port forwarding: " ++ err ++
    "\nCheck for `dapr dashboard` running in other terminal sessions, or use the `--port` flag to use a different port.\n"

/-- The URL of line 105. -/
def webURL (localPort : Int) : String :=
  "http://" ++ defaultHost ++ ":" ++ fmtD localPort

/-- The message of line 107. -/
def foundMsg (ns : String) : String :=
  "Dapr dashboard found in namespace:\t" ++ ns ++ "\n"

/-- The message of line 108. -/
def availableMsg (url : String) : String :=
  "Dapr dashboard available at:\t" ++ url ++ "\n"

/-- The message of line 112. -/
def browserFailureMsg : String := "Failed to start Dapr dashboard in browser automatically"

/-- The message of line 113. -/
def visitMsg (url : String) : String :=
  "Visit " ++ url ++ " in your browser to view the dashboard"

/-! ## The command (lines 42-117) -/

/-- The local port selected on lines 43-47. -/
def selectLocalPort (port : Int) : Int :=
  if port < 0 then defaultLocalPort else port

/-- Lines 104-116: report the URL, open the browser, wait for the session to stop; the
deferred `signal.Stop` runs on return. -/
def reportAndWait (env : Env) (found : String) (localPort : Int) : List Event :=
  [Event.infoStatusEvent (foundMsg found),
   Event.infoStatusEvent (availableMsg (webURL localPort)),
   Event.openURL (webURL localPort) (env.openURL (webURL localPort))] ++
  (match env.openURL (webURL localPort) with
   | some _ =>
     [Event.failureStatusEvent browserFailureMsg,
      Event.failureStatusEvent (visitMsg (webURL localPort))]
   | none => []) ++
  [Event.awaitGetStop, Event.signalStop]

/-- Lines 78-116: construct the session, initialise it, start the interrupt listener,
then report and wait. -/
def forwardFrom (env : Env) (found : String) (localPort : Int) : List Event :=
  Event.newPortForward found dashboardSvc defaultHost localPort remotePort false
      (env.newPortForward found localPort) ::
  (match env.newPortForward found localPort with
   | some err => [Event.failureStatusEvent (newPortForwardFailureMsg err), Event.osExit 1]
   | none =>
     Event.portForwardInit (env.init found localPort) ::
     (match env.init found localPort with
      | some err => [Event.failureStatusEvent (initFailureMsg err), Event.osExit 1]
      | none => Event.goStopOnInterrupt :: reportAndWait env found localPort))

/-- Lines 64-70: the `CheckPodExists` calls of the search loop, in order. -/
def searchEvents (env : Env) : List Event :=
  (queries env.checkPodExists namespaces).map
    (fun n => Event.checkPodExists n dashboardSvc (env.checkPodExists n))

/-- The body of `DashboardCmd.Run`: the calls it makes, in order. -/
def Run (env : Env) (g : Globals) : List Event :=
  Event.getKubeConfigClient env.getKubeConfigClient ::
  (match env.getKubeConfigClient with
   | some _ => [Event.failureStatusEvent clientFailureMsg, Event.osExit 1]
   | none =>
     Event.signalNotify ::
     (searchEvents env ++
      (if foundNamespace env.checkPodExists namespaces = "" then
         [Event.failureStatusEvent (notFoundMsg namespaces), Event.osExit 1]
       else
         forwardFrom env (foundNamespace env.checkPodExists namespaces)
           (selectLocalPort g.port))))

/-- The calls of a run up to the end of the search loop, once the client is obtained. -/
def preamble (env : Env) : List Event :=
  Event.getKubeConfigClient none :: Event.signalNotify :: searchEvents env

/-- An environment in which every call succeeds and the dashboard is found by `check`. -/
def okEnv (check : String → Bool) : Env :=
  { getKubeConfigClient := none
    checkPodExists := check
    newPortForward := fun _ _ => none
    init := fun _ _ => none
    openURL := fun _ => none }

/-- The namespaces of the `CheckPodExists` calls in a run, in call order. -/
def queriedNamespaces (t : List Event) : List String :=
  t.filterMap (fun e => match e with
    | Event.checkPodExists ns _ _ => some ns
    | _ => none)

/-- The messages passed to `print.FailureStatusEvent` in a run, in call order. -/
def failureMessages (t : List Event) : List String :=
  t.filterMap (fun e => match e with
    | Event.failureStatusEvent msg => some msg
    | _ => none)

/-- An environment in which the client is obtained, the dashboard is in `"dapr-system"`, the
session is constructed, and `Init` fails with `err`. -/
def initFailsEnv (err : String) : Env :=
  { getKubeConfigClient := none
    checkPodExists := fun n => n == "dapr-system"
    newPortForward := fun _ _ => none
    init := fun _ _ => some err
    openURL := fun _ => none }

/-- An environment in which everything succeeds but the browser, which fails with `err`. -/
def browserFailsEnv (err : String) : Env :=
  { getKubeConfigClient := none
    checkPodExists := fun n => n == "dapr-system"
    newPortForward := fun _ _ => none
    init := fun _ _ => none
    openURL := fun _ => some err }

/-- An environment in which every call succeeds and the dashboard is only in the namespace
`ns`. -/
def onlyInEnv (ns : String) : Env := okEnv (fun n => n == ns)

/-! ## The search loop -/

theorem searchLoop_first_match (check : String → Bool) (pre post : List String) (n : String)
    (hpre : ∀ x ∈ pre, check x = false) (hn : check n = true) :
    searchLoop check (pre ++ n :: post) = (n, pre ++ [n]) := by
  induction pre with
  | nil => simp [searchLoop, hn]
  | cons a pre ih =>
    have ha : check a = false := hpre a (List.mem_cons_self a pre)
    have ih2 := ih (fun x hx => hpre x (List.mem_cons_of_mem a hx))
    simp [searchLoop, ha, ih2]

theorem searchLoop_no_match (check : String → Bool) (L : List String)
    (hL : ∀ x ∈ L, check x = false) : searchLoop check L = ("", L) := by
  induction L with
  | nil => rfl
  | cons a L ih =>
    have ha : check a = false := hL a (List.mem_cons_self a L)
    have ih2 := ih (fun x hx => hL x (List.mem_cons_of_mem a hx))
    simp [searchLoop, ha, ih2]

theorem exists_first_match (check : String → Bool) (L : List String)
    (h : ∃ x ∈ L, check x = true) :
    ∃ pre n post, L = pre ++ n :: post ∧ (∀ x ∈ pre, check x = false) ∧ check n = true := by
  induction L with
  | nil => simp at h
  | cons a L ih =>
    by_cases ha : check a = true
    · exact ⟨[], a, L, rfl, by simp, ha⟩
    · have ha2 : check a = false := by simpa using ha
      have hL : ∃ x ∈ L, check x = true := by
        obtain ⟨x, hx, hcx⟩ := h
        rcases List.mem_cons.mp hx with rfl | hx2
        · exact absurd hcx ha
        · exact ⟨x, hx2, hcx⟩
      obtain ⟨pre, n, post, hEq, hpre, hn⟩ := ih hL
      refine ⟨a :: pre, n, post, by simp [hEq], ?_, hn⟩
      intro x hx
      rcases List.mem_cons.mp hx with rfl | hx2
      · exact ha2
      · exact hpre x hx2

theorem queries_eq_takeWhile (check : String → Bool) (L : List String) :
    queries check L = L.takeWhile (fun x => !check x) ++ (L.find? check).toList := by
  induction L with
  | nil => rfl
  | cons a L ih =>
    unfold queries at ih ⊢
    by_cases ha : check a = true
    · simp [searchLoop, ha]
    · have ha2 : check a = false := by simpa using ha
      simp [searchLoop, ha2, ih]

theorem queries_prefix (check : String → Bool) (L : List String) :
    queries check L <+: L := by
  induction L with
  | nil => exact List.prefix_refl []
  | cons a L ih =>
    unfold queries at ih ⊢
    by_cases ha : check a = true
    · simp [searchLoop, ha]
    · have ha2 : check a = false := by simpa using ha
      simpa [searchLoop, ha2, List.cons_prefix_cons] using ih

/-! ## Shapes of a run -/

theorem Run_of_client_error (env : Env) (g : Globals) (e : String)
    (hc : env.getKubeConfigClient = some e) :
    Run env g = [Event.getKubeConfigClient (some e),
      Event.failureStatusEvent clientFailureMsg, Event.osExit 1] := by
  simp [Run, hc]

theorem Run_of_client (env : Env) (g : Globals) (hc : env.getKubeConfigClient = none) :
    Run env g = preamble env ++
        (if foundNamespace env.checkPodExists namespaces = "" then
          [Event.failureStatusEvent (notFoundMsg namespaces), Event.osExit 1]
        else
          forwardFrom env (foundNamespace env.checkPodExists namespaces)
            (selectLocalPort g.port)) := by
  simp [Run, hc, preamble]

theorem queriedNamespaces_map (check : String → Bool) (qs : List String) :
    queriedNamespaces (qs.map (fun n => Event.checkPodExists n dashboardSvc (check n))) = qs := by
  induction qs with
  | nil => rfl
  | cons a qs ih =>
    unfold queriedNamespaces at ih ⊢
    simp [List.filterMap_cons, ih]

theorem queriedNamespaces_append (s t : List Event) :
    queriedNamespaces (s ++ t) = queriedNamespaces s ++ queriedNamespaces t := by
  simp [queriedNamespaces, List.filterMap_append]

theorem queriedNamespaces_forwardFrom (env : Env) (found : String) (lp : Int) :
    queriedNamespaces (forwardFrom env found lp) = [] := by
  unfold forwardFrom reportAndWait queriedNamespaces
  cases env.newPortForward found lp <;> cases env.init found lp <;>
    cases env.openURL (webURL lp) <;> simp [List.filterMap_cons]

theorem queriedNamespaces_Run (env : Env) (g : Globals) (hc : env.getKubeConfigClient = none) :
    queriedNamespaces (Run env g) = queries env.checkPodExists namespaces := by
  rw [Run_of_client env g hc]
  have h1 : queriedNamespaces (preamble env) = queries env.checkPodExists namespaces := by
    have h0 : ∀ t, queriedNamespaces (Event.getKubeConfigClient none :: Event.signalNotify :: t)
        = queriedNamespaces t := by
      intro t
      simp [queriedNamespaces, List.filterMap_cons]
    unfold preamble searchEvents
    rw [h0, queriedNamespaces_map]
  rw [queriedNamespaces_append, h1]
  by_cases hf : foundNamespace env.checkPodExists namespaces = ""
  · simp [hf, queriedNamespaces, List.filterMap_cons]
  · simp [hf, queriedNamespaces_forwardFrom]

theorem webURL_eq (lp : Int) : webURL lp = "http://localhost:" ++ fmtD lp := by
  have h : "http://" ++ defaultHost ++ ":" = "http://localhost:" := by decide
  unfold webURL
  rw [h]

theorem failureMessages_append (s t : List Event) :
    failureMessages (s ++ t) = failureMessages s ++ failureMessages t := by
  simp [failureMessages, List.filterMap_append]

theorem failureMessages_preamble (env : Env) : failureMessages (preamble env) = [] := by
  have h : ∀ qs : List String, failureMessages
      (qs.map (fun n => Event.checkPodExists n dashboardSvc (env.checkPodExists n))) = [] := by
    intro qs
    induction qs with
    | nil => rfl
    | cons a qs ih =>
      unfold failureMessages at ih ⊢
      simp [List.filterMap_cons, ih]
  have h2 := h (queries env.checkPodExists namespaces)
  unfold failureMessages at h2 ⊢
  unfold preamble searchEvents
  simp [List.filterMap_cons, h2]

theorem mem_preamble (env : Env) (e : Event) (h : e ∈ preamble env) :
    e = Event.getKubeConfigClient none ∨ e = Event.signalNotify ∨
      ∃ n, e = Event.checkPodExists n dashboardSvc (env.checkPodExists n) := by
  unfold preamble searchEvents at h
  simp only [List.mem_cons, List.mem_map] at h
  rcases h with h | h | ⟨n, _, hn⟩
  · exact Or.inl h
  · exact Or.inr (Or.inl h)
  · exact Or.inr (Or.inr ⟨n, hn.symm⟩)

/-- The six ways a run can go, each with the calls made. -/
theorem Run_cases (env : Env) (g : Globals) :
    (∃ e, env.getKubeConfigClient = some e ∧
      Run env g = [Event.getKubeConfigClient (some e),
        Event.failureStatusEvent clientFailureMsg, Event.osExit 1]) ∨
    (env.getKubeConfigClient = none ∧ foundNamespace env.checkPodExists namespaces = "" ∧
      Run env g = preamble env ++
        [Event.failureStatusEvent (notFoundMsg namespaces), Event.osExit 1]) ∨
    (env.getKubeConfigClient = none ∧ foundNamespace env.checkPodExists namespaces ≠ "" ∧
      ∃ e, env.newPortForward (foundNamespace env.checkPodExists namespaces)
          (selectLocalPort g.port) = some e ∧
        Run env g = preamble env ++
          [Event.newPortForward (foundNamespace env.checkPodExists namespaces) dashboardSvc
             defaultHost (selectLocalPort g.port) remotePort false (some e),
           Event.failureStatusEvent (newPortForwardFailureMsg e), Event.osExit 1]) ∨
    (env.getKubeConfigClient = none ∧ foundNamespace env.checkPodExists namespaces ≠ "" ∧
      env.newPortForward (foundNamespace env.checkPodExists namespaces)
          (selectLocalPort g.port) = none ∧
      ∃ e, env.init (foundNamespace env.checkPodExists namespaces)
          (selectLocalPort g.port) = some e ∧
        Run env g = preamble env ++
          [Event.newPortForward (foundNamespace env.checkPodExists namespaces) dashboardSvc
             defaultHost (selectLocalPort g.port) remotePort false none,
           Event.portForwardInit (some e),
           Event.failureStatusEvent (initFailureMsg e), Event.osExit 1]) ∨
    (env.getKubeConfigClient = none ∧ foundNamespace env.checkPodExists namespaces ≠ "" ∧
      env.newPortForward (foundNamespace env.checkPodExists namespaces)
          (selectLocalPort g.port) = none ∧
      env.init (foundNamespace env.checkPodExists namespaces) (selectLocalPort g.port) = none ∧
      ∃ e, env.openURL (webURL (selectLocalPort g.port)) = some e ∧
        Run env g = preamble env ++
          [Event.newPortForward (foundNamespace env.checkPodExists namespaces) dashboardSvc
             defaultHost (selectLocalPort g.port) remotePort false none,
           Event.portForwardInit none, Event.goStopOnInterrupt,
           Event.infoStatusEvent (foundMsg (foundNamespace env.checkPodExists namespaces)),
           Event.infoStatusEvent (availableMsg (webURL (selectLocalPort g.port))),
           Event.openURL (webURL (selectLocalPort g.port)) (some e),
           Event.failureStatusEvent browserFailureMsg,
           Event.failureStatusEvent (visitMsg (webURL (selectLocalPort g.port))),
           Event.awaitGetStop, Event.signalStop]) ∨
    (env.getKubeConfigClient = none ∧ foundNamespace env.checkPodExists namespaces ≠ "" ∧
      env.newPortForward (foundNamespace env.checkPodExists namespaces)
          (selectLocalPort g.port) = none ∧
      env.init (foundNamespace env.checkPodExists namespaces) (selectLocalPort g.port) = none ∧
      env.openURL (webURL (selectLocalPort g.port)) = none ∧
        Run env g = preamble env ++
          [Event.newPortForward (foundNamespace env.checkPodExists namespaces) dashboardSvc
             defaultHost (selectLocalPort g.port) remotePort false none,
           Event.portForwardInit none, Event.goStopOnInterrupt,
           Event.infoStatusEvent (foundMsg (foundNamespace env.checkPodExists namespaces)),
           Event.infoStatusEvent (availableMsg (webURL (selectLocalPort g.port))),
           Event.openURL (webURL (selectLocalPort g.port)) none,
           Event.awaitGetStop, Event.signalStop]) := by
  cases hc : env.getKubeConfigClient with
  | some e => exact Or.inl ⟨e, rfl, Run_of_client_error env g e hc⟩
  | none =>
    right
    rw [Run_of_client env g hc]
    by_cases hf : foundNamespace env.checkPodExists namespaces = ""
    · left
      exact ⟨rfl, hf, by simp [hf]⟩
    · right
      rw [if_neg hf]
      unfold forwardFrom
      cases hn : env.newPortForward (foundNamespace env.checkPodExists namespaces)
          (selectLocalPort g.port) with
      | some e => left; exact ⟨rfl, hf, e, rfl, rfl⟩
      | none =>
        right
        cases hi : env.init (foundNamespace env.checkPodExists namespaces)
            (selectLocalPort g.port) with
        | some e => left; exact ⟨rfl, hf, rfl, e, rfl, rfl⟩
        | none =>
          right
          unfold reportAndWait
          cases ho : env.openURL (webURL (selectLocalPort g.port)) with
          | some e => left; exact ⟨rfl, hf, rfl, rfl, e, rfl, rfl⟩
          | none => right; exact ⟨rfl, hf, rfl, rfl, rfl, rfl⟩

/-! ## Namespace resolution -/

/-- C1: when some candidate of `L` passes the existence check, the namespace the search loop
resolves is the first element of `L`, in list order, that passes it, whatever the check
returns on the elements after it; with the candidates `["dapr-system", "default"]` and the
service present only in `"default"` the loop resolves `"default"`, and that is the namespace
the launcher constructs the session in. -/
theorem first_match_wins (check : String → Bool) (L : List String)
    (h : ∃ x ∈ L, check x = true) :
    (∃ pre post, L = pre ++ foundNamespace check L :: post ∧
        (∀ x ∈ pre, check x = false) ∧ check (foundNamespace check L) = true) ∧
    (∀ pre n post, L = pre ++ n :: post → (∀ x ∈ pre, check x = false) → check n = true →
        foundNamespace check L = n) ∧
    (∀ c : String → Bool, c "dapr-system" = false → c "default" = true →
        foundNamespace c ["dapr-system", "default"] = "default") ∧
    (∀ (env : Env) (g : Globals), env.getKubeConfigClient = none →
        env.checkPodExists "dapr-system" = false → env.checkPodExists "default" = true →
        Event.newPortForward "default" dashboardSvc defaultHost (selectLocalPort g.port)
          remotePort false (env.newPortForward "default" (selectLocalPort g.port)) ∈ Run env g) := by
  have key : ∀ pre n post, L = pre ++ n :: post → (∀ x ∈ pre, check x = false) →
      check n = true → foundNamespace check L = n := by
    intro pre n post hL hpre hn
    rw [hL]
    unfold foundNamespace
    rw [searchLoop_first_match check pre post n hpre hn]
  have two : ∀ c : String → Bool, c "dapr-system" = false → c "default" = true →
      foundNamespace c ["dapr-system", "default"] = "default" := by
    intro c h1 h2
    simp [foundNamespace, searchLoop, h1, h2]
  refine ⟨?_, key, two, ?_⟩
  · obtain ⟨pre, n, post, hL, hpre, hn⟩ := exists_first_match check L h
    have hf := key pre n post hL hpre hn
    exact ⟨pre, post, by rw [hf]; exact hL, hpre, by rw [hf]; exact hn⟩
  · intro env g hc h1 h2
    have hf : foundNamespace env.checkPodExists namespaces = "default" := two _ h1 h2
    have hne : ¬ ("default" = "") := by decide
    rw [Run_of_client env g hc, hf]
    simp [hne, forwardFrom]

theorem first_match_wins_witness :
    (∃ x ∈ namespaces, (fun n : String => n == "default") x = true) ∧
    foundNamespace (fun n : String => n == "default") namespaces = "default" :=
  have h : ∃ x ∈ namespaces, (fun n : String => n == "default") x = true :=
    ⟨"default", by decide, by decide⟩
  ⟨h, (first_match_wins (fun n : String => n == "default") namespaces h).2.1
    ["dapr-system"] "default" [] rfl (by decide) (by decide)⟩

/-- C2: the existence queries issued by the namespace search are exactly the prefix of the
candidate list up to and including the first candidate that passes the check (the whole list
when none passes), in list order; nothing after the first match is queried, a failed check
does not stop the search, and the empty list gives not-found with no query.  The
`CheckPodExists` calls of a launch are these queries on the launcher's candidate list. -/
theorem queries_exactly_prefix_through_first_match (check : String → Bool) (L : List String) :
    queries check L = L.takeWhile (fun x => !check x) ++ (L.find? check).toList ∧
    queries check L <+: L ∧
    (∀ pre n post, L = pre ++ n :: post → (∀ x ∈ pre, check x = false) → check n = true →
        queries check L = pre ++ [n]) ∧
    ((∀ x ∈ L, check x = false) → queries check L = L ∧ foundNamespace check L = "") ∧
    (queries check [] = [] ∧ foundNamespace check [] = "") ∧
    (∀ (env : Env) (g : Globals), env.getKubeConfigClient = none →
        env.checkPodExists = check →
        queriedNamespaces (Run env g) = queries check namespaces) := by
  refine ⟨queries_eq_takeWhile check L, queries_prefix check L, ?_, ?_, ⟨rfl, rfl⟩, ?_⟩
  · intro pre n post hL hpre hn
    rw [hL]
    unfold queries
    rw [searchLoop_first_match check pre post n hpre hn]
  · intro hL
    unfold queries foundNamespace
    rw [searchLoop_no_match check L hL]
    exact ⟨rfl, rfl⟩
  · intro env g hc hk
    rw [← hk]
    exact queriedNamespaces_Run env g hc

theorem queries_exactly_prefix_through_first_match_witness :
    queries (fun n : String => n == "b") ["a", "b", "c", "b"] = ["a", "b"] ∧
    queries (fun _ : String => false) ["a", "b"] = ["a", "b"] ∧
    queriedNamespaces (Run (okEnv (fun n : String => n == "dapr-system")) ⟨8080, ""⟩)
      = ["dapr-system"] :=
  ⟨(queries_exactly_prefix_through_first_match (fun n : String => n == "b")
      ["a", "b", "c", "b"]).2.2.1 ["a"] "b" ["c", "b"] rfl (by decide) (by decide),
   ((queries_exactly_prefix_through_first_match (fun _ : String => false)
      ["a", "b"]).2.2.2.1 (by decide)).1,
   by decide⟩

/-! ## Failure paths -/

/-- C3: when the client is obtained and the existence check is false for both
`"dapr-system"` and `"default"`, the launch aborts: after the two queries it emits one
failure message, which names every namespace tried and suggests `dapr dashboard -n`, exits
with status 1, and neither constructs nor initialises a port-forward session. -/
theorem not_found_aborts (env : Env) (g : Globals)
    (hc : env.getKubeConfigClient = none)
    (h1 : env.checkPodExists "dapr-system" = false)
    (h2 : env.checkPodExists "default" = false) :
    Run env g = [Event.getKubeConfigClient none, Event.signalNotify,
      Event.checkPodExists "dapr-system" dashboardSvc false,
      Event.checkPodExists "default" dashboardSvc false,
      Event.failureStatusEvent (notFoundMsg namespaces), Event.osExit 1] ∧
    failureMessages (Run env g) =
      ["Failed to find Dapr dashboard in namespaces: [dapr-system default]\nIf Dapr dashboard is deployed to a different namespace, please use dapr dashboard -n"] ∧
    (∀ n ∈ namespaces, n.data <:+: (notFoundMsg namespaces).data) ∧
    "dapr dashboard -n".data <:+ (notFoundMsg namespaces).data ∧
    (Run env g).getLast? = some (Event.osExit 1) ∧ (1 : Int) ≠ 0 ∧
    (∀ ns d h lp rp l err, Event.newPortForward ns d h lp rp l err ∉ Run env g) ∧
    (∀ err, Event.portForwardInit err ∉ Run env g) := by
  have hR : Run env g = [Event.getKubeConfigClient none, Event.signalNotify,
      Event.checkPodExists "dapr-system" dashboardSvc false,
      Event.checkPodExists "default" dashboardSvc false,
      Event.failureStatusEvent (notFoundMsg namespaces), Event.osExit 1] := by
    simp [Run, hc, searchEvents, queries, foundNamespace, searchLoop, namespaces, h1, h2]
  have hmsg : notFoundMsg namespaces =
      "Failed to find Dapr dashboard in namespaces: [dapr-system default]\nIf Dapr dashboard is deployed to a different namespace, please use dapr dashboard -n" := by
    decide
  refine ⟨hR, ?_, ?_, ?_, ?_, by decide, ?_, ?_⟩
  · rw [hR, hmsg]
    rfl
  · rw [hmsg]
    intro n hn
    simp only [namespaces, List.mem_cons, List.mem_singleton, List.not_mem_nil, or_false] at hn
    rcases hn with rfl | rfl
    · exact ⟨"Failed to find Dapr dashboard in namespaces: [".data,
        " default]\nIf Dapr dashboard is deployed to a different namespace, please use dapr dashboard -n".data,
        by decide⟩
    · exact ⟨"Failed to find Dapr dashboard in namespaces: [dapr-system ".data,
        "]\nIf Dapr dashboard is deployed to a different namespace, please use dapr dashboard -n".data,
        by decide⟩
  · rw [hmsg]
    exact ⟨"Failed to find Dapr dashboard in namespaces: [dapr-system default]\nIf Dapr dashboard is deployed to a different namespace, please use ".data,
      by decide⟩
  · rw [hR]
    rfl
  · intro ns d h lp rp l err
    rw [hR]
    simp
  · intro err
    rw [hR]
    simp

theorem not_found_aborts_witness :
    Run (okEnv (fun _ => false)) ⟨8080, ""⟩ =
      [Event.getKubeConfigClient none, Event.signalNotify,
       Event.checkPodExists "dapr-system" "dapr-dashboard" false,
       Event.checkPodExists "default" "dapr-dashboard" false,
       Event.failureStatusEvent
         "Failed to find Dapr dashboard in namespaces: [dapr-system default]\nIf Dapr dashboard is deployed to a different namespace, please use dapr dashboard -n",
       Event.osExit 1] :=
  (not_found_aborts (okEnv (fun _ => false)) ⟨8080, ""⟩ rfl rfl rfl).1

/-- C7: in a launch in which `Init()` returns an error, the launcher emits exactly one
failure message, which suggests checking for `dapr dashboard` in other terminal sessions or
using the `--port` flag, exits with status 1 right after it, and does none of the later
steps: the interrupt listener is not started, nothing is reported, the browser is not opened
and `GetStop()` is not awaited. -/
theorem init_failure_fails_fast (env : Env) (g : Globals) (err : String)
    (h : Event.portForwardInit (some err) ∈ Run env g) :
    (∃ pre, Run env g = pre ++ [Event.portForwardInit (some err),
        Event.failureStatusEvent (initFailureMsg err), Event.osExit 1]) ∧
    failureMessages (Run env g) = [initFailureMsg err] ∧
    initFailureMsg err = "Error in port forwarding: " ++ err ++
      "\nCheck for `dapr dashboard` running in other terminal sessions, or use the `--port` flag to use a different port.\n" ∧
    "Check for `dapr dashboard` running in other terminal sessions, or use the `--port` flag to use a different port.".data
      <:+: (initFailureMsg err).data ∧
    (Run env g).getLast? = some (Event.osExit 1) ∧ (1 : Int) ≠ 0 ∧
    Event.goStopOnInterrupt ∉ Run env g ∧
    (∀ m, Event.infoStatusEvent m ∉ Run env g) ∧
    (∀ u r, Event.openURL u r ∉ Run env g) ∧
    Event.awaitGetStop ∉ Run env g := by
  have hmsg : "Check for `dapr dashboard` running in other terminal sessions, or use the `--port` flag to use a different port.".data
      <:+: (initFailureMsg err).data := by
    refine ⟨("Error in port forwarding: " ++ err ++ "\n").data, "\n".data, ?_⟩
    unfold initFailureMsg
    simp only [String.data_append, List.append_assoc]
    rfl
  rcases Run_cases env g with ⟨e, hc, hR⟩ | ⟨hc, hf, hR⟩ | ⟨hc, hf, e, hn, hR⟩ |
    ⟨hc, hf, hn, e, hi, hR⟩ | ⟨hc, hf, hn, hi, e, ho, hR⟩ | ⟨hc, hf, hn, hi, ho, hR⟩
  · rw [hR] at h
    simp at h
  · rw [hR] at h
    simp [preamble, searchEvents] at h
  · rw [hR] at h
    simp [preamble, searchEvents] at h
  · rw [hR] at h
    simp [preamble, searchEvents] at h
    subst h
    refine ⟨⟨preamble env ++ [Event.newPortForward
        (foundNamespace env.checkPodExists namespaces) dashboardSvc defaultHost
        (selectLocalPort g.port) remotePort false none], ?_⟩, ?_, rfl, hmsg, ?_, by decide,
      ?_, ?_, ?_, ?_⟩
    · rw [hR]
      simp
    · rw [hR, failureMessages_append, failureMessages_preamble]
      rfl
    · rw [hR]
      simp
    · rw [hR]
      simp [preamble, searchEvents]
    · intro m
      rw [hR]
      simp [preamble, searchEvents]
    · intro u r
      rw [hR]
      simp [preamble, searchEvents]
    · rw [hR]
      simp [preamble, searchEvents]
  · rw [hR] at h
    simp [preamble, searchEvents] at h
  · rw [hR] at h
    simp [preamble, searchEvents] at h

theorem init_failure_fails_fast_witness :
    Event.portForwardInit (some "bind: address already in use") ∈
        Run (initFailsEnv "bind: address already in use") ⟨8080, ""⟩ ∧
    failureMessages (Run (initFailsEnv "bind: address already in use") ⟨8080, ""⟩) =
      [initFailureMsg "bind: address already in use"] ∧
    Event.goStopOnInterrupt ∉ Run (initFailsEnv "bind: address already in use") ⟨8080, ""⟩ :=
  have h : Event.portForwardInit (some "bind: address already in use") ∈
      Run (initFailsEnv "bind: address already in use") ⟨8080, ""⟩ := by decide
  ⟨h, (init_failure_fails_fast _ _ _ h).2.1, (init_failure_fails_fast _ _ _ h).2.2.2.2.2.2.1⟩

/-! ## The reporting step -/

/-- C8: in a launch in which opening the URL in the browser returns an error, the launcher
does not exit: it prints the instructions naming the URL it reported and then awaits
`GetStop()` and returns, exactly as the launch in which the browser opens does. -/
theorem browser_failure_is_not_fatal (env : Env) (g : Globals) (url err : String)
    (h : Event.openURL url (some err) ∈ Run env g) :
    (∀ c, Event.osExit c ∉ Run env g) ∧
    (∃ pre, Run env g = pre ++ [Event.infoStatusEvent (availableMsg url),
        Event.openURL url (some err),
        Event.failureStatusEvent browserFailureMsg,
        Event.failureStatusEvent (visitMsg url),
        Event.awaitGetStop, Event.signalStop] ∧
      Run { env with openURL := fun _ => none } g = pre ++
        [Event.infoStatusEvent (availableMsg url), Event.openURL url none,
         Event.awaitGetStop, Event.signalStop]) ∧
    visitMsg url = "Visit " ++ url ++ " in your browser to view the dashboard" ∧
    url.data <:+: (visitMsg url).data ∧
    url.data <:+: (availableMsg url).data := by
  have hv : url.data <:+: (visitMsg url).data :=
    ⟨"Visit ".data, " in your browser to view the dashboard".data, by
      simp [visitMsg, String.data_append]⟩
  have ha : url.data <:+: (availableMsg url).data :=
    ⟨"Dapr dashboard available at:\t".data, "\n".data, by
      simp [availableMsg, String.data_append]⟩
  rcases Run_cases env g with ⟨e, hc, hR⟩ | ⟨hc, hf, hR⟩ | ⟨hc, hf, e, hn, hR⟩ |
    ⟨hc, hf, hn, e, hi, hR⟩ | ⟨hc, hf, hn, hi, e, ho, hR⟩ | ⟨hc, hf, hn, hi, ho, hR⟩
  · rw [hR] at h
    simp at h
  · rw [hR] at h
    simp [preamble, searchEvents] at h
  · rw [hR] at h
    simp [preamble, searchEvents] at h
  · rw [hR] at h
    simp [preamble, searchEvents] at h
  · rw [hR] at h
    simp [preamble, searchEvents] at h
    obtain ⟨hu, he⟩ := h
    subst hu
    subst he
    refine ⟨?_, ⟨preamble env ++ [Event.newPortForward
        (foundNamespace env.checkPodExists namespaces) dashboardSvc defaultHost
        (selectLocalPort g.port) remotePort false none,
        Event.portForwardInit none, Event.goStopOnInterrupt,
        Event.infoStatusEvent (foundMsg (foundNamespace env.checkPodExists namespaces))],
        ?_, ?_⟩, rfl, hv, ha⟩
    · intro c
      rw [hR]
      simp [preamble, searchEvents]
    · rw [hR]
      simp
    · rcases Run_cases { env with openURL := fun _ => none } g with
        ⟨e2, hc2, _⟩ | ⟨hc2, hf2, _⟩ | ⟨hc2, hf2, e2, hn2, _⟩ |
        ⟨hc2, hf2, hn2, e2, hi2, _⟩ | ⟨hc2, hf2, hn2, hi2, e2, ho2, _⟩ |
        ⟨hc2, hf2, hn2, hi2, ho2, hR2⟩
      · exact absurd (hc2.symm.trans hc) (by simp)
      · exact absurd hf2 hf
      · exact absurd (hn2.symm.trans hn) (by simp)
      · exact absurd (hi2.symm.trans hi) (by simp)
      · exact absurd ho2 (by simp)
      · rw [hR2]
        simp [preamble, searchEvents]
  · rw [hR] at h
    simp [preamble, searchEvents] at h

theorem browser_failure_is_not_fatal_witness :
    Event.openURL "http://localhost:8080" (some "exec: no browser") ∈
        Run (browserFailsEnv "exec: no browser") ⟨8080, ""⟩ ∧
    (∀ c, Event.osExit c ∉ Run (browserFailsEnv "exec: no browser") ⟨8080, ""⟩) :=
  have h : Event.openURL "http://localhost:8080" (some "exec: no browser") ∈
      Run (browserFailsEnv "exec: no browser") ⟨8080, ""⟩ := by decide
  ⟨h, (browser_failure_is_not_fatal _ _ _ _ h).1⟩

theorem selectLocalPort_nonneg (p : Int) : 0 ≤ selectLocalPort p := by
  unfold selectLocalPort defaultLocalPort
  split <;> omega

/-- The session constructor and the browser, whenever they are called, are called with the
selected local port and the URL built from it. -/
theorem calls_use_selected_port (env : Env) (g : Globals) :
    (∀ ns d h lp rp l err, Event.newPortForward ns d h lp rp l err ∈ Run env g →
      d = dashboardSvc ∧ h = defaultHost ∧ lp = selectLocalPort g.port ∧ rp = remotePort ∧
        l = false) ∧
    (∀ u r, Event.openURL u r ∈ Run env g →
      u = webURL (selectLocalPort g.port) ∧
      Event.infoStatusEvent (availableMsg u) ∈ Run env g ∧
      ∃ ns, Event.newPortForward ns dashboardSvc defaultHost (selectLocalPort g.port)
        remotePort false none ∈ Run env g) := by
  rcases Run_cases env g with ⟨e, hc, hR⟩ | ⟨hc, hf, hR⟩ | ⟨hc, hf, e, hn, hR⟩ |
    ⟨hc, hf, hn, e, hi, hR⟩ | ⟨hc, hf, hn, hi, e, ho, hR⟩ | ⟨hc, hf, hn, hi, ho, hR⟩ <;>
  · rw [hR]
    constructor
    · intro ns d h lp rp l err hm
      simp [preamble, searchEvents] at hm
      try simp [hm]
    · intro u r hm
      simp [preamble, searchEvents] at hm
      try (obtain ⟨hu, _⟩ := hm; subst hu; simp [preamble, searchEvents])

/-- C6: in a launch that reaches the reporting step, the URL reported and handed to the
browser is `"http://localhost:"` followed by the decimal digits of the local port the
session constructor was given; with the port flag at its default value it is
`"http://localhost:8080"`. -/
theorem reported_url_uses_session_port (env : Env) (g : Globals) (url : String)
    (r : Option String) (h : Event.openURL url r ∈ Run env g) :
    ∃ ns lp,
      Event.newPortForward ns dashboardSvc defaultHost lp remotePort false none ∈ Run env g ∧
      (∀ ns2 d h2 lp2 rp l e,
        Event.newPortForward ns2 d h2 lp2 rp l e ∈ Run env g → lp2 = lp) ∧
      0 ≤ lp ∧
      url = "http://localhost:" ++ Nat.repr lp.toNat ∧
      Event.infoStatusEvent ("Dapr dashboard available at:\t" ++ url ++ "\n") ∈ Run env g ∧
      (∀ u r2, Event.openURL u r2 ∈ Run env g → u = url) ∧
      (g.port = portFlagDefault → url = "http://localhost:8080") := by
  obtain ⟨hnpf, hopen⟩ := calls_use_selected_port env g
  obtain ⟨hu, hinfo, ns, hns⟩ := hopen url r h
  have hpos := selectLocalPort_nonneg g.port
  have hfmt : fmtD (selectLocalPort g.port) = Nat.repr (selectLocalPort g.port).toNat := by
    unfold fmtD
    rw [if_neg (by omega)]
  refine ⟨ns, selectLocalPort g.port, hns, ?_, hpos, ?_, hinfo, ?_, ?_⟩
  · intro ns2 d h2 lp2 rp l e hm
    exact (hnpf ns2 d h2 lp2 rp l e hm).2.2.1
  · rw [hu, webURL_eq, hfmt]
  · intro u r2 hm
    rw [hu]
    exact (hopen u r2 hm).1
  · intro hp
    rw [hu, hp]
    decide

theorem reported_url_uses_session_port_witness :
    Event.openURL "http://localhost:8080" none ∈ Run (onlyInEnv "default") ⟨8080, ""⟩ ∧
    ∃ ns lp,
      Event.newPortForward ns dashboardSvc defaultHost lp remotePort false none ∈
        Run (onlyInEnv "default") ⟨8080, ""⟩ ∧
      "http://localhost:8080" = "http://localhost:" ++ Nat.repr lp.toNat :=
  have h : Event.openURL "http://localhost:8080" none ∈
      Run (onlyInEnv "default") ⟨8080, ""⟩ := by decide
  ⟨h, (reported_url_uses_session_port _ _ _ _ h).elim fun ns hx =>
    hx.elim fun lp hy => ⟨ns, lp, hy.1, hy.2.2.2.1⟩⟩

/-- C10: the local port given to the session constructor is the port flag `p` when `p ≥ 0`
and 8080 when `p < 0`; it is never negative, the remote port is always 8080 and the host is
always `"localhost"`. -/
theorem session_constructor_arguments (env : Env) (g : Globals) (ns d h : String)
    (lp rp : Int) (l : Bool) (err : Option String)
    (hm : Event.newPortForward ns d h lp rp l err ∈ Run env g) :
    (0 ≤ g.port → lp = g.port) ∧ (g.port < 0 → lp = 8080) ∧ 0 ≤ lp ∧ rp = 8080 ∧
      h = "localhost" := by
  obtain ⟨_, hh, hlp, hrp, _⟩ := (calls_use_selected_port env g).1 ns d h lp rp l err hm
  subst hlp
  refine ⟨?_, ?_, selectLocalPort_nonneg g.port, hrp, hh⟩
  · intro hp
    unfold selectLocalPort
    rw [if_neg (by omega)]
  · intro hp
    unfold selectLocalPort
    rw [if_pos hp]
    rfl

theorem session_constructor_arguments_witness :
    Event.newPortForward "default" "dapr-dashboard" "localhost" 8080 8080 false none ∈
        Run (onlyInEnv "default") ⟨-1, ""⟩ ∧
    ((-1 : Int) < 0 → (8080 : Int) = 8080) ∧
    Event.newPortForward "default" "dapr-dashboard" "localhost" 9090 8080 false none ∈
        Run (onlyInEnv "default") ⟨9090, ""⟩ ∧
    ((0 : Int) ≤ 9090 → (9090 : Int) = 9090) :=
  have h1 : Event.newPortForward "default" "dapr-dashboard" "localhost" 8080 8080 false none ∈
      Run (onlyInEnv "default") ⟨-1, ""⟩ := by decide
  have h2 : Event.newPortForward "default" "dapr-dashboard" "localhost" 9090 8080 false none ∈
      Run (onlyInEnv "default") ⟨9090, ""⟩ := by decide
  ⟨h1, (session_constructor_arguments _ _ _ _ _ _ _ _ _ h1).2.1,
   h2, (session_constructor_arguments _ _ _ _ _ _ _ _ _ h2).1⟩

/-! ## The port flag and the namespace override -/

/-- C4, as stated, fails: with the port flag at 0 the session is constructed with local port
0 and the URL is `"http://localhost:0"`, not with the default 8080. -/
theorem port_zero_is_not_defaulted :
    Event.newPortForward "dapr-system" "dapr-dashboard" "localhost" 0 8080 false none ∈
        Run (onlyInEnv "dapr-system") ⟨0, ""⟩ ∧
    Event.openURL "http://localhost:0" none ∈ Run (onlyInEnv "dapr-system") ⟨0, ""⟩ ∧
    ¬ (∀ (env : Env) (g : Globals), g.port = 0 →
        ∀ ns d h lp rp l err, Event.newPortForward ns d h lp rp l err ∈ Run env g →
          lp = defaultLocalPort) := by
  have h1 : Event.newPortForward "dapr-system" "dapr-dashboard" "localhost" 0 8080 false none ∈
      Run (onlyInEnv "dapr-system") ⟨0, ""⟩ := by decide
  refine ⟨h1, by decide, ?_⟩
  intro hall
  have h := hall (onlyInEnv "dapr-system") ⟨0, ""⟩ rfl _ _ _ _ _ _ _ h1
  exact absurd h (by decide)

/-- C4, amended: a port flag of 0 is not treated as unset, it is used as it is: the session
is constructed with local port 0 and the URL is `"http://localhost:0"`.  The default local
port 8080 is the effective local port when the port flag is negative. -/
theorem effective_local_port (env : Env) (g : Globals) :
    (g.port = 0 →
      (∀ ns d h lp rp l err, Event.newPortForward ns d h lp rp l err ∈ Run env g → lp = 0) ∧
      (∀ u r, Event.openURL u r ∈ Run env g → u = "http://localhost:0")) ∧
    (g.port < 0 →
      (∀ ns d h lp rp l err, Event.newPortForward ns d h lp rp l err ∈ Run env g →
        lp = defaultLocalPort ∧ lp = 8080) ∧
      (∀ u r, Event.openURL u r ∈ Run env g → u = "http://localhost:8080")) := by
  obtain ⟨hnpf, hopen⟩ := calls_use_selected_port env g
  refine ⟨?_, ?_⟩
  · intro h0
    have hs : selectLocalPort g.port = 0 := by rw [h0]; rfl
    constructor
    · intro ns d h lp rp l err hm
      rw [(hnpf ns d h lp rp l err hm).2.2.1, hs]
    · intro u r hm
      rw [(hopen u r hm).1, hs]
      decide
  · intro hp
    have hs : selectLocalPort g.port = 8080 := by
      unfold selectLocalPort
      rw [if_pos hp]
      rfl
    constructor
    · intro ns d h lp rp l err hm
      rw [(hnpf ns d h lp rp l err hm).2.2.1, hs]
      exact ⟨rfl, rfl⟩
    · intro u r hm
      rw [(hopen u r hm).1, hs]
      decide

theorem effective_local_port_witness :
    Event.newPortForward "dapr-system" "dapr-dashboard" "localhost" 0 8080 false none ∈
        Run (onlyInEnv "dapr-system") ⟨0, ""⟩ ∧
    Event.openURL "http://localhost:0" none ∈ Run (onlyInEnv "dapr-system") ⟨0, ""⟩ ∧
    (∀ u r, Event.openURL u r ∈ Run (onlyInEnv "dapr-system") ⟨0, ""⟩ →
      u = "http://localhost:0") ∧
    Event.openURL "http://localhost:8080" none ∈ Run (onlyInEnv "dapr-system") ⟨-5, ""⟩ ∧
    (∀ u r, Event.openURL u r ∈ Run (onlyInEnv "dapr-system") ⟨-5, ""⟩ →
      u = "http://localhost:8080") :=
  ⟨by decide, by decide,
   ((effective_local_port (onlyInEnv "dapr-system") ⟨0, ""⟩).1 rfl).2,
   by decide,
   ((effective_local_port (onlyInEnv "dapr-system") ⟨-5, ""⟩).2 (by decide)).2⟩

/-- C5 fails on the code: `Run` never reads `dashboardNamespace` and `init` registers no
namespace flag.  With the override set to `"my-ns"` and the dashboard present only there,
the launcher still searches `"dapr-system"` and `"default"`, reports not-found and exits
with status 1 without constructing a session; in general a run does not depend on the
override. -/
theorem namespace_override_is_ignored :
    Run (onlyInEnv "my-ns") ⟨8080, "my-ns"⟩ =
      [Event.getKubeConfigClient none, Event.signalNotify,
       Event.checkPodExists "dapr-system" "dapr-dashboard" false,
       Event.checkPodExists "default" "dapr-dashboard" false,
       Event.failureStatusEvent
         "Failed to find Dapr dashboard in namespaces: [dapr-system default]\nIf Dapr dashboard is deployed to a different namespace, please use dapr dashboard -n",
       Event.osExit 1] ∧
    (∀ (env : Env) (p : Int) (a b : String), Run env ⟨p, a⟩ = Run env ⟨p, b⟩) ∧
    (∀ f ∈ registeredFlags, f.1 ≠ "namespace" ∧ f.2 ≠ "n") := by
  refine ⟨by decide, fun _ _ _ _ => rfl, by decide⟩

end Dashboard
